import Mathlib

/-!
Verification of the command-gateway layer of the 1DAW1 repository
(`src/src-tauri/src/commands.rs`).

The file under verification declares three request structs
(`EmotionalIntent`, `GenerateRequest`, `InterrogateRequest`, all with
derived serde `Serialize`/`Deserialize`) and three Tauri commands
(`generate_music`, `interrogate`, `get_emotions`).  Each command calls the
corresponding function of the external `crate::bridge::musicbrain` module
exactly once and post-processes the result with
`.map_err(|e| e.to_string())`.

The bridge module is not part of the sources; it is treated as an opaque
collaborator.  We therefore embed each command as a function parameterised
by the bridge operation (an arbitrary function into `Except ε Json`) and by
the rendering `display : ε → String` standing for Rust's
`|e| e.to_string()`.  Alongside each command we record the exact sequence
of bridge invocations its body performs (the Rust body contains a single
bridge call receiving the caller's `request` value verbatim).
-/

namespace OneDAW

/-- JSON values, embedding `serde_json::Value`.  Numbers are modelled as
integers; no claim in scope involves numeric payloads. -/
inductive Json where
  | null
  | bool (b : Bool)
  | num  (n : Int)
  | str  (s : String)
  | arr  (elems : List Json)
  | obj  (fields : List (String × Json))

/-- `EmotionalIntent` from `commands.rs` lines 4–15: seven fields, all
`Option`-typed (`technical` holds an opaque `serde_json::Value`). -/
structure EmotionalIntent where
  core_wound : Option String
  core_desire : Option String
  emotional_intent : Option String
  technical : Option Json
  base_emotion : Option String
  intensity : Option String
  specific_emotion : Option String

/-- `GenerateRequest` from `commands.rs` lines 17–21. -/
structure GenerateRequest where
  intent : EmotionalIntent
  output_format : Option String

/-- `InterrogateRequest` from `commands.rs` lines 23–28. -/
structure InterrogateRequest where
  message : String
  session_id : Option String
  context : Option Json

/-- The `EmotionalIntent` value with every field absent. -/
def EmotionalIntent.allAbsent : EmotionalIntent :=
  ⟨none, none, none, none, none, none, none⟩

/-- `generate_music` (`commands.rs` lines 30–35): calls
`crate::bridge::musicbrain::generate(request)` and applies
`.map_err(|e| e.to_string())`.  `bridge` is the opaque bridge operation and
`display` stands for the error's `to_string`. -/
def generate_music {ε : Type} (bridge : GenerateRequest → Except ε Json)
    (display : ε → String) (request : GenerateRequest) : Except String Json :=
  (bridge request).mapError display

/-- The sequence of bridge invocations performed by the body of
`generate_music`: the single call `generate(request)`, with the request
passed on verbatim. -/
def generate_music_calls {ε : Type} (_bridge : GenerateRequest → Except ε Json)
    (request : GenerateRequest) : List GenerateRequest :=
  [request]

/-- `interrogate` (`commands.rs` lines 37–42): calls
`crate::bridge::musicbrain::interrogate(request)` and applies
`.map_err(|e| e.to_string())`. -/
def interrogate {ε : Type} (bridge : InterrogateRequest → Except ε Json)
    (display : ε → String) (request : InterrogateRequest) : Except String Json :=
  (bridge request).mapError display

/-- The sequence of bridge invocations performed by the body of
`interrogate`: the single call `interrogate(request)`. -/
def interrogate_calls {ε : Type} (_bridge : InterrogateRequest → Except ε Json)
    (request : InterrogateRequest) : List InterrogateRequest :=
  [request]

/-- `get_emotions` (`commands.rs` lines 44–49): calls
`crate::bridge::musicbrain::get_emotions()` and applies
`.map_err(|e| e.to_string())`.  The bridge operation takes no argument,
modelled as a function from `Unit`. -/
def get_emotions {ε : Type} (bridge : Unit → Except ε Json)
    (display : ε → String) : Except String Json :=
  (bridge ()).mapError display

/-- The sequence of bridge invocations performed by the body of
`get_emotions`: the single nullary call `get_emotions()`. -/
def get_emotions_calls {ε : Type} (_bridge : Unit → Except ε Json) : List Unit :=
  [()]

/-! ### Serde model

The three structs carry `#[derive(Serialize, Deserialize)]`; the generated
code is not in the sources, so it is modelled here following serde's
documented default semantics for structs of `Option` fields:

* `Serialize` emits an object with one entry per field, in declaration
  order; an absent `Option` field is emitted as JSON `null`.
* `Deserialize` reads the object's entries by field name; unknown keys are
  ignored (no `deny_unknown_fields`); an `Option` field is `None` when the
  key is missing or its value is `null`; a non-`Option` field
  (`message : String`) errors when missing; a value of the wrong JSON type
  errors.
-/

/-- Serialization of an `Option<String>` field: `None` becomes `null`. -/
def optStrToJson : Option String → Json
  | none => .null
  | some s => .str s

/-- Serialization of an `Option<serde_json::Value>` field: `None` becomes
`null`. -/
def optValToJson : Option Json → Json
  | none => .null
  | some v => v

/-- Modelled from the spec: the derived `Serialize` for `EmotionalIntent`
(the generated serde code is outside the provided sources). -/
def EmotionalIntent.toJson (x : EmotionalIntent) : Json :=
  .obj [("core_wound", optStrToJson x.core_wound),
        ("core_desire", optStrToJson x.core_desire),
        ("emotional_intent", optStrToJson x.emotional_intent),
        ("technical", optValToJson x.technical),
        ("base_emotion", optStrToJson x.base_emotion),
        ("intensity", optStrToJson x.intensity),
        ("specific_emotion", optStrToJson x.specific_emotion)]

/-- Modelled from the spec: the derived `Serialize` for `GenerateRequest`. -/
def GenerateRequest.toJson (x : GenerateRequest) : Json :=
  .obj [("intent", x.intent.toJson),
        ("output_format", optStrToJson x.output_format)]

/-- Modelled from the spec: the derived `Serialize` for
`InterrogateRequest`. -/
def InterrogateRequest.toJson (x : InterrogateRequest) : Json :=
  .obj [("message", .str x.message),
        ("session_id", optStrToJson x.session_id),
        ("context", optValToJson x.context)]

/-- Field access on a JSON object: the first entry with the given key. -/
def Json.getField : Json → String → Option Json
  | .obj fields, k => fields.lookup k
  | _, _ => none

/-- Deserialization of an `Option<String>` field from its (possibly
missing) JSON value. -/
def jsonToOptStr : Option Json → Except String (Option String)
  | none => .ok none
  | some .null => .ok none
  | some (.str s) => .ok (some s)
  | some _ => .error "invalid type: expected a string"

/-- Deserialization of an `Option<serde_json::Value>` field: any present
non-`null` value is accepted verbatim. -/
def jsonToOptVal : Option Json → Except String (Option Json)
  | none => .ok none
  | some .null => .ok none
  | some v => .ok (some v)

/-- Deserialization of a required `String` field. -/
def jsonToStr (fieldName : String) : Option Json → Except String String
  | some (.str s) => .ok s
  | some _ => .error "invalid type: expected a string"
  | none => .error ("missing field " ++ fieldName)

/-- Modelled from the spec: the derived `Deserialize` for
`EmotionalIntent` (the generated serde code is outside the provided
sources; unknown keys are ignored, absent or `null` `Option` fields become
`None`). -/
def EmotionalIntent.fromJson : Json → Except String EmotionalIntent
  | .obj fields => do
    let cw ← jsonToOptStr ((Json.obj fields).getField "core_wound")
    let cd ← jsonToOptStr ((Json.obj fields).getField "core_desire")
    let ei ← jsonToOptStr ((Json.obj fields).getField "emotional_intent")
    let t ← jsonToOptVal ((Json.obj fields).getField "technical")
    let be ← jsonToOptStr ((Json.obj fields).getField "base_emotion")
    let it ← jsonToOptStr ((Json.obj fields).getField "intensity")
    let se ← jsonToOptStr ((Json.obj fields).getField "specific_emotion")
    pure ⟨cw, cd, ei, t, be, it, se⟩
  | _ => .error "invalid type: expected an object"

/-- Modelled from the spec: the derived `Deserialize` for
`GenerateRequest` (`intent` is required, `output_format` optional). -/
def GenerateRequest.fromJson : Json → Except String GenerateRequest
  | .obj fields => do
    let intentJson ←
      match (Json.obj fields).getField "intent" with
      | some j => pure j
      | none => Except.error "missing field intent"
    let intent ← EmotionalIntent.fromJson intentJson
    let fmt ← jsonToOptStr ((Json.obj fields).getField "output_format")
    pure ⟨intent, fmt⟩
  | _ => .error "invalid type: expected an object"

/-- Modelled from the spec: the derived `Deserialize` for
`InterrogateRequest` (`message` is required, the others optional). -/
def InterrogateRequest.fromJson : Json → Except String InterrogateRequest
  | .obj fields => do
    let msg ← jsonToStr "message" ((Json.obj fields).getField "message")
    let sid ← jsonToOptStr ((Json.obj fields).getField "session_id")
    let ctx ← jsonToOptVal ((Json.obj fields).getField "context")
    pure ⟨msg, sid, ctx⟩
  | _ => .error "invalid type: expected an object"

/-- The keys the derived deserializers of the three structs recognise. -/
def knownFieldNames : List String :=
  ["core_wound", "core_desire", "emotional_intent", "technical",
   "base_emotion", "intensity", "specific_emotion",
   "intent", "output_format",
   "message", "session_id", "context"]

/-! ### Concrete values used in the scenario claims -/

/-- The intent of the concrete scenario of §8 item 5 of the spec. -/
def joyIntent : EmotionalIntent :=
  ⟨none, none, none, none, some "joy", some "high", none⟩

/-- The request of the concrete scenario of §8 item 5 of the spec. -/
def joyRequest : GenerateRequest :=
  ⟨joyIntent, some "midi"⟩

/-- The bridge result `\x7b"status":"ok","track_id":"t1"\x7d` of the
concrete scenario. -/
def okTrackJson : Json :=
  .obj [("status", .str "ok"), ("track_id", .str "t1")]

/-! ### Theorems for the claims -/

/-- Claim C1: for every bridge success value `v`, each of `generate_music`,
`interrogate` and `get_emotions` returns `v` unchanged — the Gateway
applies no transformation to a successful bridge result. -/
theorem success_passthrough {ε : Type}
    (bridgeG : GenerateRequest → Except ε Json)
    (bridgeI : InterrogateRequest → Except ε Json)
    (bridgeE : Unit → Except ε Json) (display : ε → String)
    (reqG : GenerateRequest) (reqI : InterrogateRequest) (v : Json)
    (hG : bridgeG reqG = .ok v) (hI : bridgeI reqI = .ok v)
    (hE : bridgeE () = .ok v) :
    generate_music bridgeG display reqG = .ok v ∧
    interrogate bridgeI display reqI = .ok v ∧
    get_emotions bridgeE display = .ok v := by
  refine ⟨?_, ?_, ?_⟩ <;>
    simp [generate_music, interrogate, get_emotions, hG, hI, hE,
      Except.mapError]

/-- Witness for C1 at a concrete bridge that succeeds with the string
value "x" on every operation. -/
theorem success_passthrough_witness :
    generate_music (fun _ : GenerateRequest => (.ok (.str "x") : Except String Json))
      id ⟨EmotionalIntent.allAbsent, none⟩ = .ok (.str "x") ∧
    interrogate (fun _ : InterrogateRequest => (.ok (.str "x") : Except String Json))
      id ⟨"hello", none, none⟩ = .ok (.str "x") ∧
    get_emotions (fun _ : Unit => (.ok (.str "x") : Except String Json))
      id = .ok (.str "x") :=
  success_passthrough _ _ _ id ⟨EmotionalIntent.allAbsent, none⟩
    ⟨"hello", none, none⟩ (.str "x") rfl rfl rfl

/-- Claim C2: each operation returns an error exactly when the bridge call
fails, the error is the bridge's error value rendered by `display`
(Rust's `to_string`), and the body performs exactly one bridge call with
no retry, fallback or validation of its own. -/
theorem error_normalization {ε : Type}
    (bridgeG : GenerateRequest → Except ε Json)
    (bridgeI : InterrogateRequest → Except ε Json)
    (bridgeE : Unit → Except ε Json) (display : ε → String)
    (reqG : GenerateRequest) (reqI : InterrogateRequest) :
    (∀ e, bridgeG reqG = .error e →
      generate_music bridgeG display reqG = .error (display e)) ∧
    (∀ s, generate_music bridgeG display reqG = .error s →
      ∃ e, bridgeG reqG = .error e ∧ s = display e) ∧
    generate_music_calls bridgeG reqG = [reqG] ∧
    (∀ e, bridgeI reqI = .error e →
      interrogate bridgeI display reqI = .error (display e)) ∧
    (∀ s, interrogate bridgeI display reqI = .error s →
      ∃ e, bridgeI reqI = .error e ∧ s = display e) ∧
    interrogate_calls bridgeI reqI = [reqI] ∧
    (∀ e, bridgeE () = .error e →
      get_emotions bridgeE display = .error (display e)) ∧
    (∀ s, get_emotions bridgeE display = .error s →
      ∃ e, bridgeE () = .error e ∧ s = display e) ∧
    get_emotions_calls bridgeE = [()] := by
  refine ⟨?_, ?_, rfl, ?_, ?_, rfl, ?_, ?_, rfl⟩
  · intro e he; simp [generate_music, he, Except.mapError]
  · intro s hs
    cases hb : bridgeG reqG with
    | ok v => simp [generate_music, hb, Except.mapError] at hs
    | error e =>
      refine ⟨e, rfl, ?_⟩
      simp [generate_music, hb, Except.mapError] at hs
      exact hs.symm
  · intro e he; simp [interrogate, he, Except.mapError]
  · intro s hs
    cases hb : bridgeI reqI with
    | ok v => simp [interrogate, hb, Except.mapError] at hs
    | error e =>
      refine ⟨e, rfl, ?_⟩
      simp [interrogate, hb, Except.mapError] at hs
      exact hs.symm
  · intro e he; simp [get_emotions, he, Except.mapError]
  · intro s hs
    cases hb : bridgeE () with
    | ok v => simp [get_emotions, hb, Except.mapError] at hs
    | error e =>
      refine ⟨e, rfl, ?_⟩
      simp [get_emotions, hb, Except.mapError] at hs
      exact hs.symm

/-- Witness for C2 at a concrete bridge that fails with cause "boom" on
every operation: each gateway operation surfaces the string "boom". -/
theorem error_normalization_witness :
    generate_music (fun _ : GenerateRequest => (.error "boom" : Except String Json))
      id ⟨EmotionalIntent.allAbsent, none⟩ = .error "boom" ∧
    interrogate (fun _ : InterrogateRequest => (.error "boom" : Except String Json))
      id ⟨"hello", none, none⟩ = .error "boom" ∧
    get_emotions (fun _ : Unit => (.error "boom" : Except String Json))
      id = .error "boom" :=
  ⟨(error_normalization
      (fun _ : GenerateRequest => (.error "boom" : Except String Json))
      (fun _ : InterrogateRequest => (.error "boom" : Except String Json))
      (fun _ : Unit => (.error "boom" : Except String Json)) id
      ⟨EmotionalIntent.allAbsent, none⟩ ⟨"hello", none, none⟩).1 "boom" rfl,
   (error_normalization
      (fun _ : GenerateRequest => (.error "boom" : Except String Json))
      (fun _ : InterrogateRequest => (.error "boom" : Except String Json))
      (fun _ : Unit => (.error "boom" : Except String Json)) id
      ⟨EmotionalIntent.allAbsent, none⟩ ⟨"hello", none, none⟩).2.2.2.1 "boom" rfl,
   (error_normalization
      (fun _ : GenerateRequest => (.error "boom" : Except String Json))
      (fun _ : InterrogateRequest => (.error "boom" : Except String Json))
      (fun _ : Unit => (.error "boom" : Except String Json)) id
      ⟨EmotionalIntent.allAbsent, none⟩ ⟨"hello", none, none⟩).2.2.2.2.2.2.1 "boom" rfl⟩

/-- Claim C3: the error string is a deterministic function of the failure
cause alone — two gateway calls whose bridge call fails with the same
cause `c` produce the same error string, namely `display c`. -/
theorem error_string_deterministic {ε : Type}
    (bridge₁ bridge₂ : GenerateRequest → Except ε Json) (display : ε → String)
    (req₁ req₂ : GenerateRequest) (c : ε)
    (h₁ : bridge₁ req₁ = .error c) (h₂ : bridge₂ req₂ = .error c) :
    generate_music bridge₁ display req₁ = .error (display c) ∧
    generate_music bridge₁ display req₁ = generate_music bridge₂ display req₂ := by
  constructor
  · simp [generate_music, h₁, Except.mapError]
  · simp [generate_music, h₁, h₂, Except.mapError]

/-- Witness for C3 at two concrete bridges failing with the same cause. -/
theorem error_string_deterministic_witness :
    generate_music (fun _ : GenerateRequest => (.error "oops" : Except String Json))
      id ⟨EmotionalIntent.allAbsent, none⟩ = .error "oops" ∧
    generate_music (fun _ : GenerateRequest => (.error "oops" : Except String Json))
      id ⟨EmotionalIntent.allAbsent, none⟩ =
    generate_music (fun _ : GenerateRequest => (.error "oops" : Except String Json))
      id ⟨EmotionalIntent.allAbsent, some "midi"⟩ :=
  error_string_deterministic _ _ id ⟨EmotionalIntent.allAbsent, none⟩
    ⟨EmotionalIntent.allAbsent, some "midi"⟩ "oops" rfl rfl

/-- Claim C4: every structurally valid `EmotionalIntent` — in particular
the all-absent one — is accepted: `generate_music` succeeds exactly when
the bridge succeeds, and the request reaches the bridge unmodified. -/
theorem generate_music_accepts_all_intents {ε : Type}
    (bridge : GenerateRequest → Except ε Json) (display : ε → String)
    (intent : EmotionalIntent) (fmt : Option String) :
    (generate_music bridge display ⟨intent, fmt⟩).isOk =
      (bridge ⟨intent, fmt⟩).isOk ∧
    generate_music_calls bridge ⟨intent, fmt⟩ = [⟨intent, fmt⟩] ∧
    (generate_music bridge display ⟨EmotionalIntent.allAbsent, fmt⟩).isOk =
      (bridge ⟨EmotionalIntent.allAbsent, fmt⟩).isOk := by
  refine ⟨?_, rfl, ?_⟩
  · cases hb : bridge ⟨intent, fmt⟩ <;>
      simp [generate_music, hb, Except.mapError, Except.isOk, Except.toBool]
  · cases hb : bridge ⟨EmotionalIntent.allAbsent, fmt⟩ <;>
      simp [generate_music, hb, Except.mapError, Except.isOk, Except.toBool]

/-- Claim C5: a request populating both the legacy `emotional_intent`
field and the new `base_emotion`/`intensity`/`specific_emotion` triad is
forwarded to the bridge with every field exactly as supplied — no merging,
no precedence resolution, no modification. -/
theorem both_formats_forwarded_unmodified {ε : Type}
    (bridge : GenerateRequest → Except ε Json) (display : ε → String)
    (cw cd : Option String) (legacy : String) (tech : Option Json)
    (base intens spec : String) (fmt : Option String) :
    generate_music_calls bridge
        ⟨⟨cw, cd, some legacy, tech, some base, some intens, some spec⟩, fmt⟩ =
      [⟨⟨cw, cd, some legacy, tech, some base, some intens, some spec⟩, fmt⟩] ∧
    generate_music bridge display
        ⟨⟨cw, cd, some legacy, tech, some base, some intens, some spec⟩, fmt⟩ =
      (bridge ⟨⟨cw, cd, some legacy, tech, some base, some intens, some spec⟩,
        fmt⟩).mapError display :=
  ⟨rfl, rfl⟩

/-- Claim C6: `interrogate` accepts a request with `session_id = none` and
one with `session_id = some "abc"` alike, forwarding each to the bridge
verbatim; its result is the bridge's result (error rendered by `display`)
with no inspection of or branching on `session_id`. -/
theorem interrogate_session_id_opaque {ε : Type}
    (bridge : InterrogateRequest → Except ε Json) (display : ε → String)
    (msg : String) (ctx : Option Json) :
    interrogate_calls bridge ⟨msg, none, ctx⟩ = [⟨msg, none, ctx⟩] ∧
    interrogate_calls bridge ⟨msg, some "abc", ctx⟩ =
      [⟨msg, some "abc", ctx⟩] ∧
    interrogate bridge display ⟨msg, none, ctx⟩ =
      (bridge ⟨msg, none, ctx⟩).mapError display ∧
    interrogate bridge display ⟨msg, some "abc", ctx⟩ =
      (bridge ⟨msg, some "abc", ctx⟩).mapError display :=
  ⟨rfl, rfl, rfl, rfl⟩

/-- Claim C7: the concrete joy/high/midi request is forwarded to the
bridge exactly as built, and when the bridge answers with the object
`\x7b"status":"ok","track_id":"t1"\x7d` the gateway returns that object
unchanged. -/
theorem concrete_generate_scenario :
    generate_music (fun _ : GenerateRequest => (.ok okTrackJson : Except String Json))
      id joyRequest = .ok okTrackJson ∧
    generate_music_calls
      (fun _ : GenerateRequest => (.ok okTrackJson : Except String Json))
      joyRequest = [joyRequest] ∧
    joyRequest = ⟨⟨none, none, none, none, some "joy", some "high", none⟩,
      some "midi"⟩ :=
  ⟨rfl, rfl, rfl⟩

/-- Claim C8: when the bridge's `get_emotions` call fails with cause
"catalog unavailable", the gateway returns exactly the failure string
"catalog unavailable", not a generic placeholder. -/
theorem concrete_get_emotions_failure :
    get_emotions (fun _ : Unit => (.error "catalog unavailable" : Except String Json))
      id = .error "catalog unavailable" ∧
    get_emotions_calls
      (fun _ : Unit => (.error "catalog unavailable" : Except String Json)) = [()] :=
  ⟨rfl, rfl⟩

/-- Looking up a key is unaffected by inserting an entry under a different
key anywhere in the association list. -/
theorem lookup_insert_ne {β : Type} (l₁ l₂ : List (String × β))
    (k k' : String) (v : β) (h : k' ≠ k) :
    List.lookup k' (l₁ ++ (k, v) :: l₂) = List.lookup k' (l₁ ++ l₂) := by
  induction l₁ with
  | nil => simp [List.lookup, beq_eq_false_iff_ne.mpr h]
  | cons hd tl ih =>
    cases hd with
    | mk a b =>
      by_cases hk : k' = a
      · subst hk; simp [List.lookup]
      · simp [List.lookup, hk, ih]

/-- `Json.getField` is unaffected by inserting an entry under a different
key anywhere in the object. -/
theorem getField_insert_ne (l₁ l₂ : List (String × Json))
    (k k' : String) (v : Json) (h : k' ≠ k) :
    Json.getField (.obj (l₁ ++ (k, v) :: l₂)) k' =
      Json.getField (.obj (l₁ ++ l₂)) k' := by
  simp [Json.getField, lookup_insert_ne l₁ l₂ k k' v h]

/-- Claim C9: the deserializers of all three request structs ignore an
unknown field inserted anywhere in the payload — deserialization yields
the same outcome as without it. -/
theorem unknown_fields_ignored (l₁ l₂ : List (String × Json))
    (k : String) (v : Json) (hk : k ∉ knownFieldNames) :
    EmotionalIntent.fromJson (.obj (l₁ ++ (k, v) :: l₂)) =
      EmotionalIntent.fromJson (.obj (l₁ ++ l₂)) ∧
    GenerateRequest.fromJson (.obj (l₁ ++ (k, v) :: l₂)) =
      GenerateRequest.fromJson (.obj (l₁ ++ l₂)) ∧
    InterrogateRequest.fromJson (.obj (l₁ ++ (k, v) :: l₂)) =
      InterrogateRequest.fromJson (.obj (l₁ ++ l₂)) := by
  simp only [knownFieldNames, List.mem_cons, List.not_mem_nil, or_false,
    not_or] at hk
  obtain ⟨h₁, h₂, h₃, h₄, h₅, h₆, h₇, h₈, h₉, h₁₀, h₁₁, h₁₂⟩ := hk
  refine ⟨?_, ?_, ?_⟩
  · simp only [EmotionalIntent.fromJson,
      getField_insert_ne l₁ l₂ k _ v (Ne.symm h₁),
      getField_insert_ne l₁ l₂ k _ v (Ne.symm h₂),
      getField_insert_ne l₁ l₂ k _ v (Ne.symm h₃),
      getField_insert_ne l₁ l₂ k _ v (Ne.symm h₄),
      getField_insert_ne l₁ l₂ k _ v (Ne.symm h₅),
      getField_insert_ne l₁ l₂ k _ v (Ne.symm h₆),
      getField_insert_ne l₁ l₂ k _ v (Ne.symm h₇)]
  · simp only [GenerateRequest.fromJson, EmotionalIntent.fromJson,
      getField_insert_ne l₁ l₂ k _ v (Ne.symm h₁),
      getField_insert_ne l₁ l₂ k _ v (Ne.symm h₂),
      getField_insert_ne l₁ l₂ k _ v (Ne.symm h₃),
      getField_insert_ne l₁ l₂ k _ v (Ne.symm h₄),
      getField_insert_ne l₁ l₂ k _ v (Ne.symm h₅),
      getField_insert_ne l₁ l₂ k _ v (Ne.symm h₆),
      getField_insert_ne l₁ l₂ k _ v (Ne.symm h₇),
      getField_insert_ne l₁ l₂ k _ v (Ne.symm h₈),
      getField_insert_ne l₁ l₂ k _ v (Ne.symm h₉)]
  · simp only [InterrogateRequest.fromJson,
      getField_insert_ne l₁ l₂ k _ v (Ne.symm h₁₀),
      getField_insert_ne l₁ l₂ k _ v (Ne.symm h₁₁),
      getField_insert_ne l₁ l₂ k _ v (Ne.symm h₁₂)]

/-- Witness for C9: inserting the unknown key "extra" into concrete
payloads leaves each deserializer's outcome unchanged. -/
theorem unknown_fields_ignored_witness :
    EmotionalIntent.fromJson
        (.obj ([("base_emotion", .str "joy")] ++ ("extra", .num 7) :: [])) =
      EmotionalIntent.fromJson (.obj ([("base_emotion", .str "joy")] ++ [])) ∧
    GenerateRequest.fromJson
        (.obj ([("intent", .obj [])] ++ ("extra", .num 7) :: [])) =
      GenerateRequest.fromJson (.obj ([("intent", .obj [])] ++ [])) ∧
    InterrogateRequest.fromJson
        (.obj ([("message", .str "hi")] ++ ("extra", .num 7) :: [])) =
      InterrogateRequest.fromJson (.obj ([("message", .str "hi")] ++ [])) := by
  have h :=
    unknown_fields_ignored [("base_emotion", Json.str "joy")] []
      "extra" (.num 7) (by decide)
  have h' :=
    unknown_fields_ignored [("intent", Json.obj [])] []
      "extra" (.num 7) (by decide)
  have h'' :=
    unknown_fields_ignored [("message", Json.str "hi")] []
      "extra" (.num 7) (by decide)
  exact ⟨h.1, h'.2.1, h''.2.2⟩

/-- The intent whose `technical` field is present and equal to JSON
`null` — the value on which the serde round trip collapses `Some(null)`
to `None`. -/
def techNullIntent : EmotionalIntent :=
  ⟨none, none, none, some .null, none, none, none⟩

/-- Counterexample to C10 as stated: for the intent with
`technical = Some(null)`, deserializing the serialization does not give
back the same value (the field comes back as `None`). -/
theorem roundtrip_fails_on_some_null :
    EmotionalIntent.fromJson techNullIntent.toJson ≠ .ok techNullIntent := by
  intro h
  have heval : EmotionalIntent.fromJson techNullIntent.toJson =
      .ok EmotionalIntent.allAbsent := rfl
  rw [heval] at h
  have hfield := congrArg EmotionalIntent.technical (Except.ok.inj h)
  exact Option.noConfusion hfield

/-- A present `Option<String>` field round-trips through its JSON
rendering. -/
theorem jsonToOptStr_optStrToJson (o : Option String) :
    jsonToOptStr (some (optStrToJson o)) = .ok o := by
  cases o <;> rfl

/-- A present `Option<serde_json::Value>` field round-trips through its
JSON rendering provided it is not `Some(null)`. -/
theorem jsonToOptVal_optValToJson (o : Option Json) (h : o ≠ some .null) :
    jsonToOptVal (some (optValToJson o)) = .ok o := by
  cases o with
  | none => rfl
  | some v => cases v <;> first | rfl | exact absurd rfl h

/-- Claim C10 (amended): the serialize-then-deserialize round trip is the
identity on each of the three structs for every value whose opaque JSON
fields (`technical`, `context`) are not `Some(null)`; on `Some(null)` the
derived pair collapses the field to `None`. -/
theorem serde_roundtrip (x : EmotionalIntent) (g : GenerateRequest)
    (r : InterrogateRequest) (hx : x.technical ≠ some .null)
    (hg : g.intent.technical ≠ some .null) (hr : r.context ≠ some .null) :
    EmotionalIntent.fromJson x.toJson = .ok x ∧
    GenerateRequest.fromJson g.toJson = .ok g ∧
    InterrogateRequest.fromJson r.toJson = .ok r := by
  refine ⟨?_, ?_, ?_⟩
  · obtain ⟨cw, cd, ei, t, be, it, se⟩ := x
    simp [EmotionalIntent.toJson, EmotionalIntent.fromJson, Json.getField,
      List.lookup, jsonToOptStr_optStrToJson, jsonToOptVal_optValToJson _ hx]
    try rfl
  · obtain ⟨intent, fmt⟩ := g
    obtain ⟨cw, cd, ei, t, be, it, se⟩ := intent
    simp [GenerateRequest.toJson, GenerateRequest.fromJson,
      EmotionalIntent.toJson, EmotionalIntent.fromJson, Json.getField,
      List.lookup, jsonToOptStr_optStrToJson, jsonToOptVal_optValToJson _ hg]
    try rfl
  · obtain ⟨msg, sid, ctx⟩ := r
    simp [InterrogateRequest.toJson, InterrogateRequest.fromJson,
      Json.getField, List.lookup, jsonToOptStr_optStrToJson,
      jsonToOptVal_optValToJson _ hr, jsonToStr]
    try rfl

/-- Witness for the amended C10 at concrete values with no `Some(null)`
opaque field. -/
theorem serde_roundtrip_witness :
    EmotionalIntent.fromJson joyIntent.toJson = .ok joyIntent ∧
    GenerateRequest.fromJson joyRequest.toJson = .ok joyRequest ∧
    InterrogateRequest.fromJson
        (InterrogateRequest.mk "hi" (some "abc") (some (.num 3))).toJson =
      .ok (InterrogateRequest.mk "hi" (some "abc") (some (.num 3))) :=
  serde_roundtrip joyIntent joyRequest ⟨"hi", some "abc", some (.num 3)⟩
    (fun hcontra => Option.noConfusion hcontra)
    (fun hcontra => Option.noConfusion hcontra)
    (fun hcontra => Json.noConfusion (Option.some.inj hcontra))

end OneDAW
